import Mathlib

/-
Verification of the cache-augmented query layer of the Property Listing
system (Express + Mongoose + ioredis).

The embedding below translates the TypeScript source into Lean:
  * `CacheService` (src/services/cacheService.ts) over an explicit redis
    state with a per-call transport-failure flag;
  * the property controller (cache keys, create/get/update/delete/search,
    filter building, pagination) over a list-of-documents Entity Store;
  * the favorites controller (addFavorite and friends).
JavaScript numbers are modelled by `JsNum` (NaN, infinities, or an exact
rational); machine floats never overflow in the ranges exercised here, so
rational arithmetic is the faithful model of the arithmetic the code does.
-/

namespace PropertySystem

/-- A JavaScript number: NaN, an infinity, or a finite value (modelled as an
exact rational; all arithmetic performed by this codebase stays well inside
the range where doubles are exact on integers). -/
inductive JsNum where
  | nan
  | inf
  | negInf
  | val (x : ℚ)
deriving DecidableEq, Repr

namespace JsNum

/-- JS subtraction, restricted to the shapes this codebase produces
(finite values and NaN; NaN propagates, as in IEEE). -/
def sub : JsNum → JsNum → JsNum
  | val a, val b => val (a - b)
  | inf, val _ => inf
  | negInf, val _ => negInf
  | val _, inf => negInf
  | val _, negInf => inf
  | inf, negInf => inf
  | negInf, inf => negInf
  | _, _ => nan

/-- JS multiplication (NaN propagates; signed-infinity cases follow IEEE,
with 0 * inf = NaN). -/
def mul : JsNum → JsNum → JsNum
  | val a, val b => val (a * b)
  | inf, val b => if b > 0 then inf else if b < 0 then negInf else nan
  | val a, inf => if a > 0 then inf else if a < 0 then negInf else nan
  | negInf, val b => if b > 0 then negInf else if b < 0 then inf else nan
  | val a, negInf => if a > 0 then negInf else if a < 0 then inf else nan
  | inf, inf => inf
  | negInf, negInf => inf
  | inf, negInf => negInf
  | negInf, inf => negInf
  | _, _ => nan

/-- JS division (x/0 gives a signed infinity, 0/0 gives NaN, NaN
propagates). -/
def div : JsNum → JsNum → JsNum
  | val a, val b =>
    if b = 0 then (if a > 0 then inf else if a < 0 then negInf else nan)
    else val (a / b)
  | inf, val _ => inf
  | negInf, val _ => negInf
  | val _, inf => val 0
  | val _, negInf => val 0
  | _, _ => nan

/-- JS Math.ceil (identity on NaN and the infinities). -/
def ceil : JsNum → JsNum
  | val a => val (Int.ceil a : ℤ)
  | x => x

/-- MongoDB/BSON numeric comparison order used by range queries: NaN sorts
below every number, then -Infinity, the finite values, and Infinity. -/
def bsonLe : JsNum → JsNum → Bool
  | nan, _ => true
  | _, nan => false
  | negInf, _ => true
  | _, negInf => false
  | val a, val b => a ≤ b
  | _, inf => true
  | inf, _ => false

end JsNum

/-- Leading-whitespace skipping, as JS numeric parsing does. -/
def skipWs : List Char → List Char
  | [] => []
  | c :: cs =>
    if c = ' ' || c = '\t' || c = '\n' || c = '\r' then skipWs cs else c :: cs

/-- The leading run of decimal digits of a character list. -/
def leadingDigits : List Char → List Char
  | [] => []
  | c :: cs => if c.isDigit then c :: leadingDigits cs else []

/-- Numeric value of a list of decimal digits. -/
def digitsToNat (ds : List Char) : ℕ :=
  ds.foldl (fun a c => a * 10 + (c.toNat - 48)) 0

/-- JS `parseInt(s)` (radix 10): skip whitespace, optional sign, consume the
leading digits and ignore any trailing junk; NaN when no digit is found. -/
def jsParseInt (s : String) : JsNum :=
  let cs := skipWs s.toList
  match cs with
  | '-' :: r =>
    let ds := leadingDigits r
    if ds.isEmpty then .nan else .val (-(digitsToNat ds : ℚ))
  | '+' :: r =>
    let ds := leadingDigits r
    if ds.isEmpty then .nan else .val (digitsToNat ds : ℚ)
  | r =>
    let ds := leadingDigits r
    if ds.isEmpty then .nan else .val (digitsToNat ds : ℚ)

/-- JS `parseFloat(s)` on plain decimal literals (optional sign, integer
part, optional fractional part; exponent forms are not used by this
codebase's inputs). NaN when no digit is found. -/
def jsParseFloat (s : String) : JsNum :=
  let cs := skipWs s.toList
  let signAndRest : ℚ × List Char :=
    match cs with
    | '-' :: r => (-1, r)
    | '+' :: r => (1, r)
    | r => (1, r)
  let sgn := signAndRest.1
  let r := signAndRest.2
  let ip := leadingDigits r
  match r.drop ip.length with
  | '.' :: fr =>
    let fp := leadingDigits fr
    if ip.isEmpty && fp.isEmpty then .nan
    else .val (sgn * ((digitsToNat ip : ℚ) + (digitsToNat fp : ℚ) / (10 : ℚ) ^ fp.length))
  | _ => if ip.isEmpty then .nan else .val (sgn * (digitsToNat ip : ℚ))

/-- Redis `KEYS` glob matching restricted to literal characters and `*`,
the only pattern forms this codebase uses (`properties:*`, `search:*`). -/
def globMatch : List Char → List Char → Bool
  | [], s => s.isEmpty
  | pc :: ps, s =>
    if pc = '*' then
      (List.range (s.length + 1)).any fun n => globMatch ps (s.drop n)
    else
      match s with
      | [] => false
      | c :: cs => pc == c && globMatch ps cs

/-- Glob matching on strings. -/
def globMatchStr (pat s : String) : Bool :=
  globMatch pat.toList s.toList

/-- A pattern consisting of a literal part followed by a single trailing `*`
matches every string extending that literal part. -/
theorem globMatch_append_star (pre s : List Char) :
    globMatch (pre ++ ['*']) (pre ++ s) = true := by
  induction pre generalizing s with
  | nil =>
    simp only [List.nil_append, globMatch, if_true]
    rw [List.any_eq_true]
    refine ⟨s.length, ?_, ?_⟩
    · simp [List.mem_range]
    · simp [globMatch]
  | cons c pre ih =>
    by_cases hc : c = '*'
    · subst hc
      simp only [List.cons_append, globMatch, if_true]
      rw [List.any_eq_true]
      refine ⟨1, ?_, ?_⟩
      · simp [List.mem_range]
      · simpa using ih s
    · simp [globMatch, hc, ih s]

/-! ### Redis state and the `CacheService` wrapper (src/services/cacheService.ts)

The redis connection is modelled as an association list from keys to
(serialized value, ttl) pairs.  Each underlying ioredis call takes a
`fail` flag: `true` models a transport failure, surfaced as `Except.error`
exactly where the JavaScript promise would reject.  `CacheService`'s
`try`/`catch` blocks appear as the `match` on the raw call's outcome. -/

/-- State of the external redis store: key, serialized value, ttl seconds. -/
def RStore : Type := List (String × String × ℕ)

/-- First stored value for a key, if any. -/
def rstoreLookup (st : RStore) (k : String) : Option String :=
  (List.find? (fun e => e.1 == k) st).map (fun e => e.2.1)

/-- The `redisClient.get(key)`: rejects on transport failure. -/
def redisGet (fail : Bool) (st : RStore) (k : String) : Except Unit (Option String) :=
  if fail then .error () else .ok (rstoreLookup st k)

/-- The `redisClient.set(key, value, 'EX', ttl)`: overwrite; rejects on
transport failure (in which case the store is unchanged). -/
def redisSet (fail : Bool) (st : RStore) (k v : String) (ttl : ℕ) :
    Except Unit RStore :=
  if fail then .error ()
  else .ok ((k, v, ttl) :: List.filter (fun e => !(e.1 == k)) st)

/-- The `redisClient.del(...keys)`. -/
def redisDel (fail : Bool) (st : RStore) (ks : List String) : Except Unit RStore :=
  if fail then .error () else .ok (List.filter (fun e => !(ks.contains e.1)) st)

/-- The `redisClient.keys(pattern)`: the keys currently matching a glob. -/
def redisKeys (fail : Bool) (st : RStore) (pat : String) : Except Unit (List String) :=
  if fail then .error ()
  else .ok (List.filter (fun k => globMatchStr pat k) (st.map (fun e => e.1)))

/-- Default TTL (`CACHE_TTL = 3600`). -/
def CACHE_TTL : ℕ := 3600

namespace CacheService

/-- The `CacheService.get<T>`: read, then `data ? JSON.parse(data) : null`; the
catch block converts any rejection (transport or `JSON.parse`) into `null`.
`jsonParse` is the deserializer for the payload type `T`. -/
def get {α : Type} (fail : Bool) (jsonParse : String → Except Unit α)
    (st : RStore) (k : String) : Except Unit (Option α) :=
  match (do
    let data ← redisGet fail st k
    match data with
    | some s =>
      if s.isEmpty then pure none
      else do
        let v ← jsonParse s
        pure (some v)
    | none => pure none : Except Unit (Option α)) with
  | .ok r => .ok r
  | .error _ => .ok none

/-- The `CacheService.set`: serialize and store with expiry; the catch block
turns a rejection into a silent no-op. -/
def set {α : Type} (fail : Bool) (stringify : α → String)
    (st : RStore) (k : String) (v : α) (ttl : ℕ) : Except Unit RStore :=
  match redisSet fail st k (stringify v) ttl with
  | .ok st2 => .ok st2
  | .error _ => .ok st

/-- The `CacheService.del`: delete one key; catch turns rejection into no-op. -/
def del (fail : Bool) (st : RStore) (k : String) : Except Unit RStore :=
  match redisDel fail st [k] with
  | .ok st2 => .ok st2
  | .error _ => .ok st

/-- The `CacheService.delByPattern`: scan keys then bulk delete (two round
trips, each of which may fail); catch turns rejection into no-op. -/
def delByPattern (failKeys failDel : Bool) (st : RStore) (pat : String) :
    Except Unit RStore :=
  match (do
    let ks ← redisKeys failKeys st pat
    if ks.length > 0 then redisDel failDel st ks else pure st :
      Except Unit RStore) with
  | .ok st2 => .ok st2
  | .error _ => .ok st

end CacheService

/-! ### Entity documents (src/models/Property.ts, src/models/User.ts) -/

/-- A property document.  Numeric fields are JS numbers that the schema
requires to be actual numbers, so they are modelled as rationals;
`availableFrom` is a Date, modelled by its numeric timestamp;
`createdBy` is an ObjectId rendered as a string. -/
structure Property where
  propertyId : String
  title : String
  type : String
  price : ℚ
  state : String
  city : String
  areaSqFt : ℚ
  bedrooms : ℚ
  bathrooms : ℚ
  amenities : List String
  furnished : String
  availableFrom : ℚ
  listedBy : String
  tags : List String
  colorTheme : String
  rating : ℚ
  isVerified : Bool
  listingType : String
  createdBy : Option String
deriving DecidableEq, Repr

/-- A recommendation entry on a user document. -/
structure Recommendation where
  propertyId : String
  recommendedBy : String
  recommendedAt : ℚ
deriving DecidableEq, Repr

/-- A user document (`_id` rendered as a string). -/
structure UserDoc where
  id : String
  email : String
  password : String
  favorites : List String
  recommendationsReceived : List Recommendation
deriving DecidableEq, Repr

/-! ### The query filter (built by `searchProperties`) and its MongoDB
meaning -/

/-- A `{$gte: _, $lte: _}` range condition as built by the controller;
either bound may be absent. -/
structure RangeCond where
  gte : Option JsNum
  lte : Option JsNum
deriving DecidableEq, Repr

/-- The filter object assembled by `searchProperties` (part_005 lines
264-308): each field is present exactly when the controller assigned it. -/
structure Filter where
  type : Option String
  state : Option String
  city : Option String
  bedrooms : Option JsNum
  bathrooms : Option JsNum
  furnished : Option String
  listedBy : Option String
  listingType : Option String
  isVerified : Option Bool
  price : Option RangeCond
  areaSqFt : Option RangeCond
  rating : Option RangeCond
  availableFrom : Option RangeCond
  amenities : Option (List String)
  tags : Option (List String)
deriving DecidableEq, Repr

/-- The empty filter (`const filter: any = {}`). -/
def Filter.empty : Filter :=
  ⟨none, none, none, none, none, none, none, none, none, none, none, none,
    none, none, none⟩

/-- Mongo range-condition semantics against a numeric field value. -/
def rangeMatches (rc : RangeCond) (x : ℚ) : Bool :=
  (match rc.gte with
   | some b => JsNum.bsonLe b (JsNum.val x)
   | none => true) &&
  (match rc.lte with
   | some b => JsNum.bsonLe (JsNum.val x) b
   | none => true)

/-- Mongo equality of a filter bound against a numeric field value (our
documents always hold real numbers; a NaN bound equals no real number). -/
def eqNumMatches (b : JsNum) (x : ℚ) : Bool :=
  b == JsNum.val x

/-- Mongo `$all` semantics: every listed value occurs in the array field. -/
def allMatches (l : List String) (xs : List String) : Bool :=
  l.all (fun a => xs.contains a)

/-- Whether a property document satisfies a filter: the conjunction of all
present conditions (MongoDB query semantics). -/
def matchesFilter (f : Filter) (p : Property) : Bool :=
  (match f.type with | some t => p.type == t | none => true) &&
  (match f.state with | some t => p.state == t | none => true) &&
  (match f.city with | some t => p.city == t | none => true) &&
  (match f.bedrooms with | some b => eqNumMatches b p.bedrooms | none => true) &&
  (match f.bathrooms with | some b => eqNumMatches b p.bathrooms | none => true) &&
  (match f.furnished with | some t => p.furnished == t | none => true) &&
  (match f.listedBy with | some t => p.listedBy == t | none => true) &&
  (match f.listingType with | some t => p.listingType == t | none => true) &&
  (match f.isVerified with | some b => p.isVerified == b | none => true) &&
  (match f.price with | some rc => rangeMatches rc p.price | none => true) &&
  (match f.areaSqFt with | some rc => rangeMatches rc p.areaSqFt | none => true) &&
  (match f.rating with | some rc => rangeMatches rc p.rating | none => true) &&
  (match f.availableFrom with | some rc => rangeMatches rc p.availableFrom | none => true) &&
  (match f.amenities with | some l => allMatches l p.amenities | none => true) &&
  (match f.tags with | some l => allMatches l p.tags | none => true)

/-! ### Query parameters and the search cache key -/

/-- The `req.query` as Express builds it: name/value pairs, in the order the
names first appear in the query string (object-property insertion order). -/
def QueryParams : Type := List (String × String)

/-- Property access on the query object: the value for a name, if bound. -/
def queryLookup (q : QueryParams) (name : String) : Option String :=
  (List.find? (fun e => e.1 == name) q).map (fun e => e.2)

/-- JS string truthiness used by the `if (x)` guards: `undefined` and the
empty string are falsy. -/
def truthy (o : Option String) : Option String :=
  match o with
  | some s => if s.isEmpty then none else some s
  | none => none

/-- The `JSON.stringify(req.query)`: serializes the object's properties in
insertion order (values are plain strings needing no escaping here). -/
def jsonStringifyQuery (q : QueryParams) : String :=
  "\x7b" ++
    String.intercalate ","
      (q.map (fun e => "\"" ++ e.1 ++ "\":\"" ++ e.2 ++ "\"")) ++
  "\x7d"

/-! Cache-key functions from the controllers' `CACHE_KEYS` tables. -/

namespace CACHE_KEYS

def PROPERTY (id : String) : String := "property:" ++ id

def PROPERTIES : String := "properties:all"

def SEARCH (query : String) : String := "search:" ++ query

def FILTERS : String := "filters:all"

def USER_FAVORITES (userId : String) : String :=
  "user:" ++ userId ++ ":favorites"

def USER_RECOMMENDATIONS (userId : String) : String :=
  "user:" ++ userId ++ ":recommendations"

end CACHE_KEYS

/-- The cache key `searchProperties` computes for a request. -/
def searchCacheKey (q : QueryParams) : String :=
  CACHE_KEYS.SEARCH (jsonStringifyQuery q)

/-! ### The filter builder (part_005 lines 264-308) -/

/-- The `new Date(s)` used as a query bound, abstracted to its numeric
timestamp; an unparseable date gives NaN, like `new Date(bad).getTime()`.
No claim depends on the shape of date parsing, only on the guard
structure. -/
def jsDateNum (s : String) : JsNum := jsParseFloat s

/-- Worker for `jsSplit`: accumulate the current field (reversed). -/
def jsSplitGo (sep : Char) : List Char → List Char → List String
  | [], acc => [String.mk acc.reverse]
  | c :: cs, acc =>
    if c = sep then String.mk acc.reverse :: jsSplitGo sep cs []
    else jsSplitGo sep cs (c :: acc)

/-- JS `s.split(sep)` for a single-character separator (`'|'` here). -/
def jsSplit (s : String) (sep : Char) : List String :=
  jsSplitGo sep s.toList []

/-- Build the Mongo filter from the query, exactly as the controller's
sequence of guarded assignments does.  JS truthiness governs every guard
except `isVerified`, which is guarded by `!== undefined`. -/
def buildFilter (q : QueryParams) : Filter :=
  let type := truthy (queryLookup q "type")
  let minPrice := truthy (queryLookup q "minPrice")
  let maxPrice := truthy (queryLookup q "maxPrice")
  let state := truthy (queryLookup q "state")
  let city := truthy (queryLookup q "city")
  let minArea := truthy (queryLookup q "minArea")
  let maxArea := truthy (queryLookup q "maxArea")
  let bedrooms := truthy (queryLookup q "bedrooms")
  let bathrooms := truthy (queryLookup q "bathrooms")
  let amenities := truthy (queryLookup q "amenities")
  let furnished := truthy (queryLookup q "furnished")
  let availableFrom := truthy (queryLookup q "availableFrom")
  let listedBy := truthy (queryLookup q "listedBy")
  let tags := truthy (queryLookup q "tags")
  let minRating := truthy (queryLookup q "minRating")
  let isVerified := queryLookup q "isVerified"
  let listingType := truthy (queryLookup q "listingType")
  { type := type
    state := state
    city := city
    bedrooms := bedrooms.map jsParseInt
    bathrooms := bathrooms.map jsParseInt
    furnished := furnished
    listedBy := listedBy
    listingType := listingType
    isVerified := isVerified.map (fun s => s == "true")
    price :=
      if minPrice.isSome || maxPrice.isSome then
        some ⟨minPrice.map jsParseInt, maxPrice.map jsParseInt⟩
      else none
    areaSqFt :=
      if minArea.isSome || maxArea.isSome then
        some ⟨minArea.map jsParseInt, maxArea.map jsParseInt⟩
      else none
    rating :=
      match minRating with
      | some s => some ⟨some (jsParseFloat s), none⟩
      | none => none
    availableFrom :=
      match availableFrom with
      | some s => some ⟨some (jsDateNum s), none⟩
      | none => none
    amenities := amenities.map (fun s => jsSplit s '|')
    tags := tags.map (fun s => jsSplit s '|') }

/-! ### Dynamic-field sorting (`sort[sortBy] = sortOrder === 'asc' ? 1 : -1`)

MongoDB sorts by the named field under the BSON comparison order
(Null < Numbers < String < Array < Boolean).  Array comparison is
modelled lexicographically; no claim depends on it. -/

/-- The sortable value of a document field named at runtime. -/
inductive SortVal where
  | null
  | num (x : ℚ)
  | str (s : String)
  | arr (xs : List String)
  | boolean (b : Bool)
deriving DecidableEq, Repr

/-- BSON type rank for cross-type comparison. -/
def SortVal.rank : SortVal → ℕ
  | null => 0
  | num _ => 1
  | str _ => 2
  | arr _ => 3
  | boolean _ => 4

/-- Lexicographic comparison of string arrays (model stand-in). -/
def lexLe : List String → List String → Bool
  | [], _ => true
  | _ :: _, [] => false
  | x :: xs, y :: ys => if x == y then lexLe xs ys else decide (x < y)

/-- BSON comparison between sortable values. -/
def SortVal.le (a b : SortVal) : Bool :=
  match a, b with
  | .num x, .num y => decide (x ≤ y)
  | .str x, .str y => x == y || decide (x < y)
  | .arr x, .arr y => lexLe x y
  | .boolean x, .boolean y => !x || y
  | .null, .null => true
  | _, _ => decide (a.rank ≤ b.rank)

/-- The value of the field a `sortBy` parameter names; a name that is not a
schema field is absent from every document and sorts as Null. -/
def fieldSortVal (p : Property) (field : String) : SortVal :=
  if field = "propertyId" then .str p.propertyId
  else if field = "title" then .str p.title
  else if field = "type" then .str p.type
  else if field = "price" then .num p.price
  else if field = "state" then .str p.state
  else if field = "city" then .str p.city
  else if field = "areaSqFt" then .num p.areaSqFt
  else if field = "bedrooms" then .num p.bedrooms
  else if field = "bathrooms" then .num p.bathrooms
  else if field = "amenities" then .arr p.amenities
  else if field = "furnished" then .str p.furnished
  else if field = "availableFrom" then .num p.availableFrom
  else if field = "listedBy" then .str p.listedBy
  else if field = "tags" then .arr p.tags
  else if field = "colorTheme" then .str p.colorTheme
  else if field = "rating" then .num p.rating
  else if field = "isVerified" then .boolean p.isVerified
  else if field = "listingType" then .str p.listingType
  else .null

/-- Insert into a sorted list (insertion sort step). -/
def insertSorted {α : Type} (le : α → α → Bool) (x : α) : List α → List α
  | [] => [x]
  | y :: ys => if le x y then x :: y :: ys else y :: insertSorted le x ys

/-- Insertion sort by a boolean comparison. -/
def insertionSort {α : Type} (le : α → α → Bool) : List α → List α
  | [] => []
  | x :: xs => insertSorted le x (insertionSort le xs)

/-- The `.sort(sort)`: order documents by the named field, ascending or
descending. -/
def applySort (sortBy : String) (asc : Bool) (l : List Property) : List Property :=
  insertionSort
    (fun p q =>
      if asc then SortVal.le (fieldSortVal p sortBy) (fieldSortVal q sortBy)
      else SortVal.le (fieldSortVal q sortBy) (fieldSortVal p sortBy)) l

/-! ### Composite payloads (filter options, pagination, search result) -/

/-- The distinct-value enumeration returned by `getFilterOptions`. -/
structure FilterOptions where
  types : List String
  states : List String
  cities : List String
  furnishedOptions : List String
  listedByOptions : List String
  listingTypes : List String
  amenities : List String
  tags : List String
deriving DecidableEq, Repr

/-- The `getFilterOptions`: `Property.distinct(field)` for each filterable
field.  `distinct` on an array field takes the distinct members of the
union of the arrays. -/
def getFilterOptions (st : List Property) : FilterOptions :=
  { types := (st.map (fun p => p.type)).eraseDups
    states := (st.map (fun p => p.state)).eraseDups
    cities := (st.map (fun p => p.city)).eraseDups
    furnishedOptions := (st.map (fun p => p.furnished)).eraseDups
    listedByOptions := (st.map (fun p => p.listedBy)).eraseDups
    listingTypes := (st.map (fun p => p.listingType)).eraseDups
    amenities := ((st.map (fun p => p.amenities)).flatten).eraseDups
    tags := ((st.map (fun p => p.tags)).flatten).eraseDups }

/-- The `pagination` object of a search result. -/
structure Pagination where
  total : ℕ
  page : JsNum
  limit : JsNum
  pages : JsNum
deriving DecidableEq, Repr

/-- The `data` payload assembled by `searchProperties`. -/
structure SearchResult where
  properties : List Property
  pagination : Pagination
  filterOptions : FilterOptions
deriving DecidableEq, Repr

/-! ### The logical cache used by the controllers

The controllers read and write JSON payloads through `CacheService`.
`Cache` is the deserialized view of the redis keyspace on the successful
transport path (C4's theorem shows a failed call degrades to a miss or a
no-op, and spec section 4.6 scopes invalidation as best-effort, so the
controller-level theorems model the failure-free execution). -/

/-- Payload kinds the controllers cache. -/
inductive CVal where
  | prop (p : Property)
  | propList (ps : List Property)
  | searchRes (r : SearchResult)
  | filterRes (f : FilterOptions)
deriving DecidableEq, Repr

/-- The logical cache keyspace. -/
def Cache : Type := List (String × CVal)

/-- The `CacheService.get` on the logical cache. -/
def cacheLookup (c : Cache) (k : String) : Option CVal :=
  (List.find? (fun e => e.1 == k) c).map (fun e => e.2)

/-- The `CacheService.set` on the logical cache (overwrite). -/
def cacheSet (c : Cache) (k : String) (v : CVal) : Cache :=
  (k, v) :: List.filter (fun e => !(e.1 == k)) c

/-- The `CacheService.del` on the logical cache. -/
def cacheDel (c : Cache) (k : String) : Cache :=
  List.filter (fun e => !(e.1 == k)) c

/-- The `CacheService.delByPattern` on the logical cache. -/
def cacheDelPattern (c : Cache) (pat : String) : Cache :=
  List.filter (fun e => !(globMatchStr pat e.1)) c

/-! ### The property controller (src/unnamed/part_005) -/

/-- The `Property.findOne({propertyId: id})` against the Entity Store. -/
def findProp (st : List Property) (id : String) : Option Property :=
  List.find? (fun p => p.propertyId == id) st

/-- The `findOneAndUpdate({propertyId: id}, body)`: apply the update to the
first matching document. -/
def updateFirst (u : Property → Property) (id : String) :
    List Property → List Property
  | [] => []
  | p :: ps =>
    if p.propertyId == id then u p :: ps else p :: updateFirst u id ps

/-- The `property.deleteOne()`: remove the found (first matching) document. -/
def removeFirstProp (id : String) : List Property → List Property
  | [] => []
  | p :: ps => if p.propertyId == id then ps else p :: removeFirstProp id ps

/-- HTTP outcomes of the property endpoints.  `validationError` is the
generic 400 outcome in the API's response vocabulary (spec section 7(d)
assigns request-shape errors to it); which paths actually produce it is
exactly what the theorems below settle. -/
inductive PropResponse where
  | unauthorized
  | notFound
  | forbidden
  | okProp (p : Property)
  | okList (ps : List Property)
  | cachedVal (v : CVal)
  | deletedMsg
  | validationError
  | serverError
deriving DecidableEq, Repr

/-- The `createProperty`: requires auth, inserts the body (stamped with
`createdBy`), then invalidates `properties:*` and `search:*`.  The body is
modelled after its date fix-up, as a full document. -/
def createProperty (st : List Property) (c : Cache) (user : Option String)
    (body : Property) : List Property × Cache × PropResponse :=
  match user with
  | none => (st, c, .unauthorized)
  | some uid =>
    let p := { body with createdBy := some uid }
    let st2 := st ++ [p]
    let c1 := cacheDelPattern c "properties:*"
    let c2 := cacheDelPattern c1 "search:*"
    (st2, c2, .okProp p)

/-- The `getAllProperties`: cache-aside read of the full collection. -/
def getAllProperties (st : List Property) (c : Cache) : Cache × PropResponse :=
  match cacheLookup c CACHE_KEYS.PROPERTIES with
  | some v => (c, .cachedVal v)
  | none => (cacheSet c CACHE_KEYS.PROPERTIES (CVal.propList st), .okList st)

/-- The `getPropertyById`: cache-aside read of a single listing; a store miss
is a 404 and is not cached. -/
def getPropertyById (st : List Property) (c : Cache) (id : String) :
    Cache × PropResponse :=
  let cacheKey := CACHE_KEYS.PROPERTY id
  match cacheLookup c cacheKey with
  | some v => (c, .cachedVal v)
  | none =>
    match findProp st id with
    | none => (c, .notFound)
    | some property => (cacheSet c cacheKey (CVal.prop property), .okProp property)

/-- The `updateProperty`: auth, existence and ownership checks, then the store
update followed by the three invalidations.  `upd` models applying
`req.body` to the document; `new: true` returns the updated document. -/
def updateProperty (st : List Property) (c : Cache) (user : Option String)
    (id : String) (upd : Property → Property) :
    List Property × Cache × PropResponse :=
  match user with
  | none => (st, c, .unauthorized)
  | some uid =>
    match findProp st id with
    | none => (st, c, .notFound)
    | some property =>
      if property.createdBy = some uid then
        let st2 := updateFirst upd id st
        let c1 := cacheDel c (CACHE_KEYS.PROPERTY id)
        let c2 := cacheDelPattern c1 "properties:*"
        let c3 := cacheDelPattern c2 "search:*"
        (st2, c3, .okProp (upd property))
      else (st, c, .forbidden)

/-- The `deleteProperty`: auth, existence and ownership checks, then the store
delete followed by the three invalidations. -/
def deleteProperty (st : List Property) (c : Cache) (user : Option String)
    (id : String) : List Property × Cache × PropResponse :=
  match user with
  | none => (st, c, .unauthorized)
  | some uid =>
    match findProp st id with
    | none => (st, c, .notFound)
    | some property =>
      if property.createdBy = some uid then
        let st2 := removeFirstProp id st
        let c1 := cacheDel c (CACHE_KEYS.PROPERTY id)
        let c2 := cacheDelPattern c1 "properties:*"
        let c3 := cacheDelPattern c2 "search:*"
        (st2, c3, .deletedMsg)
      else (st, c, .forbidden)

/-! ### The search engine (part_005 lines 228-357) -/

/-- The `const { page = '1', ... } = req.query` then `parseInt(page)`: the
destructuring default applies only when the parameter is absent. -/
def searchPageNum (q : QueryParams) : JsNum :=
  jsParseInt ((queryLookup q "page").getD "1")

/-- The `parseInt(limit)` with destructuring default `'10'`. -/
def searchLimitNum (q : QueryParams) : JsNum :=
  jsParseInt ((queryLookup q "limit").getD "10")

/-- The `const skip = (pageNum - 1) * limitNum` in JS arithmetic. -/
def searchSkip (q : QueryParams) : JsNum :=
  JsNum.mul (JsNum.sub (searchPageNum q) (JsNum.val 1)) (searchLimitNum q)

/-- The `sortBy` with destructuring default `'price'`. -/
def searchSortBy (q : QueryParams) : String :=
  (queryLookup q "sortBy").getD "price"

/-- The `sortOrder` with destructuring default `'asc'`. -/
def searchSortOrder (q : QueryParams) : String :=
  (queryLookup q "sortOrder").getD "asc"

/-- The `Property.find(filter).sort(sort).skip(skip).limit(limitNum)`: MongoDB
rejects a skip or limit that is not a (finite, integral) number, and a
negative skip; the driver surfaces that as a rejected promise (`.error`).
A negative limit is treated by MongoDB as a single batch of at most the
absolute value. -/
def execFind (st : List Property) (f : Filter) (sortBy : String) (asc : Bool)
    (skip limit : JsNum) : Except Unit (List Property) :=
  match skip, limit with
  | .val s, .val l =>
    if s.isInt && l.isInt && 0 ≤ s then
      let sorted := applySort sortBy asc (List.filter (fun p => matchesFilter f p) st)
      .ok ((sorted.drop s.num.toNat).take l.num.natAbs)
    else .error ()
  | _, _ => .error ()

/-- HTTP outcomes of `searchProperties` (same remark as `PropResponse`
about `validationError`). -/
inductive SearchResponse where
  | cached (v : CVal)
  | success (r : SearchResult)
  | validationError (msg : String)
  | serverError
deriving DecidableEq, Repr

/-- The `searchProperties`: key from `JSON.stringify(req.query)`, cache-aside
read, filter build, paginated fetch plus count, filter-option enumeration,
assembly, cache populate.  A rejected store promise reaches the catch
block and becomes a 500. -/
def searchProperties (st : List Property) (c : Cache) (q : QueryParams) :
    Cache × SearchResponse :=
  let cacheKey := searchCacheKey q
  match cacheLookup c cacheKey with
  | some v => (c, .cached v)
  | none =>
    let filter := buildFilter q
    let pageNum := searchPageNum q
    let limitNum := searchLimitNum q
    let skip := searchSkip q
    match execFind st filter (searchSortBy q) (searchSortOrder q == "asc")
        skip limitNum with
    | .error _ => (c, .serverError)
    | .ok properties =>
      let total := (List.filter (fun p => matchesFilter filter p) st).length
      let result : SearchResult :=
        { properties := properties
          pagination :=
            { total := total
              page := pageNum
              limit := limitNum
              pages := JsNum.ceil (JsNum.div (JsNum.val total) limitNum) }
          filterOptions := getFilterOptions st }
      (cacheSet c cacheKey (CVal.searchRes result), .success result)

/-! ### The favorites controller (src/unnamed/part_004) -/

/-- The `User.findById(user.id)`. -/
def findUser (users : List UserDoc) (uid : String) : Option UserDoc :=
  List.find? (fun u => u.id == uid) users

/-- The `userDoc.save()` after mutating the found user document. -/
def updateUserFirst (u : UserDoc → UserDoc) (uid : String) :
    List UserDoc → List UserDoc
  | [] => []
  | x :: xs => if x.id == uid then u x :: xs else x :: updateUserFirst u uid xs

/-- HTTP outcomes of the favorites endpoints. -/
inductive FavResponse where
  | unauthorized
  | propNotFound
  | userNotFound
  | alreadyFavorite
  | added
  | removed
  | cachedVal (v : CVal)
  | favList (ps : List Property)
deriving DecidableEq, Repr

/-- The `addFavorite`: auth, property and user existence checks, duplicate
check, then push/save followed by invalidation of the user's favorites
key. -/
def addFavorite (props : List Property) (users : List UserDoc) (c : Cache)
    (user : Option String) (propertyId : String) :
    List UserDoc × Cache × FavResponse :=
  match user with
  | none => (users, c, .unauthorized)
  | some uid =>
    match findProp props propertyId with
    | none => (users, c, .propNotFound)
    | some property =>
      match findUser users uid with
      | none => (users, c, .userNotFound)
      | some userDoc =>
        if userDoc.favorites.contains property.propertyId then
          (users, c, .alreadyFavorite)
        else
          let users2 :=
            updateUserFirst
              (fun u => { u with favorites := u.favorites ++ [property.propertyId] })
              uid users
          let c2 := cacheDel c (CACHE_KEYS.USER_FAVORITES uid)
          (users2, c2, .added)

/-- Whether a search response is the 200 success payload. -/
def isSuccess : SearchResponse → Bool
  | .success _ => true
  | _ => false

/-- Whether a search response is a 400 validation failure. -/
def isValidationError : SearchResponse → Bool
  | .validationError _ => true
  | _ => false

/-- A concrete listing used to instantiate the theorems below. -/
def sampleProp : Property :=
  { propertyId := "PROP1"
    title := "Lakeside Bungalow"
    type := "Bungalow"
    price := 100
    state := "Goa"
    city := "Panaji"
    areaSqFt := 500
    bedrooms := 2
    bathrooms := 1
    amenities := ["pool", "gym"]
    furnished := "Furnished"
    availableFrom := 0
    listedBy := "Owner"
    tags := ["lake-view"]
    colorTheme := "#ffffff"
    rating := 4
    isVerified := true
    listingType := "rent"
    createdBy := some "u1" }

/-- A concrete user document used to instantiate the theorems below. -/
def sampleUser : UserDoc :=
  { id := "u1"
    email := "a@b.c"
    password := "hash"
    favorites := ["PROP1"]
    recommendationsReceived := [] }

/-! ## Generic lemmas about the logical cache -/

/-- A key absent from the cache stays absent under any filtering operation
(`cacheDel` and `cacheDelPattern` only remove entries). -/
theorem cacheLookup_filter_none (c : Cache) (k : String)
    (pr : String × CVal → Bool) (h : cacheLookup c k = none) :
    cacheLookup (List.filter pr c) k = none := by
  simp only [cacheLookup, Option.map_eq_none', List.find?_eq_none] at h ⊢
  intro e he
  exact h e (List.mem_of_mem_filter he)

/-- The `cacheDel` removes every entry stored at the deleted key. -/
theorem cacheLookup_cacheDel_self (c : Cache) (k : String) :
    cacheLookup (cacheDel c k) k = none := by
  simp only [cacheDel, cacheLookup, Option.map_eq_none', List.find?_eq_none]
  intro e he
  have := (List.mem_filter.mp he).2
  simpa using this

/-- The `cacheDelPattern` removes every entry whose key matches the pattern. -/
theorem cacheLookup_cacheDelPattern_matching (c : Cache) (pat k : String)
    (h : globMatchStr pat k = true) :
    cacheLookup (cacheDelPattern c pat) k = none := by
  simp only [cacheDelPattern, cacheLookup, Option.map_eq_none', List.find?_eq_none]
  intro e he
  have hm := (List.mem_filter.mp he).2
  intro hk
  rw [eq_of_beq hk] at hm
  simp [h] at hm

/-- The `search:*` matches every search-result key. -/
theorem globMatchStr_search_key (qs : String) :
    globMatchStr "search:*" (CACHE_KEYS.SEARCH qs) = true := by
  have h1 : (CACHE_KEYS.SEARCH qs).toList = "search:".toList ++ qs.toList := by
    simp [CACHE_KEYS.SEARCH, String.toList, String.data_append]
  have h2 : ("search:*").toList = "search:".toList ++ ['*'] := by decide
  rw [globMatchStr, h1, h2]
  exact globMatch_append_star _ _

/-- The `properties:*` matches the collection key. -/
theorem globMatchStr_properties_all :
    globMatchStr "properties:*" CACHE_KEYS.PROPERTIES = true := by decide

section ClaimTheorems

attribute [local semireducible] Rat.mul Rat.add Rat.sub Rat.inv Rat.ofScientific

/-- C1: after a successful update of listing `id` (the authenticated caller
owns it and it exists) and likewise after a successful delete, the cache
holds no entry at the single-listing key, the collection key, or any
search-result key. -/
theorem claim_C1 (st : List Property) (c : Cache) (uid id : String)
    (upd : Property → Property) (p : Property) (qs : String)
    (hfind : findProp st id = some p) (hown : p.createdBy = some uid) :
    cacheLookup (updateProperty st c (some uid) id upd).2.1
        (CACHE_KEYS.PROPERTY id) = none ∧
    cacheLookup (updateProperty st c (some uid) id upd).2.1
        CACHE_KEYS.PROPERTIES = none ∧
    cacheLookup (updateProperty st c (some uid) id upd).2.1
        (CACHE_KEYS.SEARCH qs) = none ∧
    cacheLookup (deleteProperty st c (some uid) id).2.1
        (CACHE_KEYS.PROPERTY id) = none ∧
    cacheLookup (deleteProperty st c (some uid) id).2.1
        CACHE_KEYS.PROPERTIES = none ∧
    cacheLookup (deleteProperty st c (some uid) id).2.1
        (CACHE_KEYS.SEARCH qs) = none := by
  have hcu : (updateProperty st c (some uid) id upd).2.1 =
      cacheDelPattern (cacheDelPattern (cacheDel c (CACHE_KEYS.PROPERTY id))
        "properties:*") "search:*" := by
    simp [updateProperty, hfind, hown]
  have hcd : (deleteProperty st c (some uid) id).2.1 =
      cacheDelPattern (cacheDelPattern (cacheDel c (CACHE_KEYS.PROPERTY id))
        "properties:*") "search:*" := by
    simp [deleteProperty, hfind, hown]
  have h1 : cacheLookup
      (cacheDelPattern (cacheDelPattern (cacheDel c (CACHE_KEYS.PROPERTY id))
        "properties:*") "search:*") (CACHE_KEYS.PROPERTY id) = none :=
    cacheLookup_filter_none _ _ _
      (cacheLookup_filter_none _ _ _ (cacheLookup_cacheDel_self _ _))
  have h2 : cacheLookup
      (cacheDelPattern (cacheDelPattern (cacheDel c (CACHE_KEYS.PROPERTY id))
        "properties:*") "search:*") CACHE_KEYS.PROPERTIES = none :=
    cacheLookup_filter_none _ _ _
      (cacheLookup_cacheDelPattern_matching _ _ _ globMatchStr_properties_all)
  have h3 : cacheLookup
      (cacheDelPattern (cacheDelPattern (cacheDel c (CACHE_KEYS.PROPERTY id))
        "properties:*") "search:*") (CACHE_KEYS.SEARCH qs) = none :=
    cacheLookup_cacheDelPattern_matching _ _ _ (globMatchStr_search_key qs)
  rw [hcu, hcd]
  exact ⟨h1, h2, h3, h1, h2, h3⟩

/-- C1 witness: a concrete owner-performed update and delete of `PROP1`. -/
theorem claim_C1_witness :
    cacheLookup (updateProperty [sampleProp] [] (some "u1") "PROP1"
        (fun p => p)).2.1 (CACHE_KEYS.PROPERTY "PROP1") = none ∧
    cacheLookup (deleteProperty [sampleProp] [] (some "u1") "PROP1").2.1
        (CACHE_KEYS.SEARCH "q") = none := by
  have h := claim_C1 [sampleProp] [] "u1" "PROP1" (fun p => p) sampleProp "q"
    (by decide) (by decide)
  exact ⟨h.1, h.2.2.2.2.2⟩

/-- C3: a lookup of an identifier that is missing from the Entity Store
(and not stale-cached) returns 404 and leaves the cache unchanged, and
after the entity is then created, the very next read returns it. -/
theorem claim_C3 (st : List Property) (c : Cache) (id uid : String)
    (body : Property)
    (hmiss : cacheLookup c (CACHE_KEYS.PROPERTY id) = none)
    (hstore : findProp st id = none)
    (hbody : body.propertyId = id) :
    getPropertyById st c id = (c, PropResponse.notFound) ∧
    (getPropertyById (createProperty st c (some uid) body).1
        (createProperty st c (some uid) body).2.1 id).2 =
      PropResponse.okProp { body with createdBy := some uid } := by
  constructor
  · simp [getPropertyById, hmiss, hstore]
  · have hst : (createProperty st c (some uid) body).1 =
        st ++ [{ body with createdBy := some uid }] := by
      simp [createProperty]
    have hc : (createProperty st c (some uid) body).2.1 =
        cacheDelPattern (cacheDelPattern c "properties:*") "search:*" := by
      simp [createProperty]
    have hm2 : cacheLookup
        (cacheDelPattern (cacheDelPattern c "properties:*") "search:*")
        (CACHE_KEYS.PROPERTY id) = none :=
      cacheLookup_filter_none _ _ _ (cacheLookup_filter_none _ _ _ hmiss)
    have hfind2 : findProp (st ++ [{ body with createdBy := some uid }]) id =
        some { body with createdBy := some uid } := by
      unfold findProp at hstore ⊢
      rw [List.find?_append, hstore]
      simp [hbody]
    rw [hst, hc]
    simp [getPropertyById, hm2, hfind2]

/-- C3 witness: looking up `PROP1` in an empty store and cache, then
creating it. -/
theorem claim_C3_witness :
    getPropertyById [] [] "PROP1" = ([], PropResponse.notFound) ∧
    (getPropertyById (createProperty [] [] (some "u1") sampleProp).1
        (createProperty [] [] (some "u1") sampleProp).2.1 "PROP1").2 =
      PropResponse.okProp { sampleProp with createdBy := some "u1" } :=
  claim_C3 [] [] "PROP1" "u1" sampleProp (by decide) (by decide) (by decide)

/-- C10: adding a property already present in the user's favorites answers
400 `already in favorites` and leaves both the user documents and the
cache exactly as they were (no invalidation on that path). -/
theorem claim_C10 (props : List Property) (users : List UserDoc) (c : Cache)
    (uid pid : String) (property : Property) (userDoc : UserDoc)
    (hp : findProp props pid = some property)
    (hu : findUser users uid = some userDoc)
    (hfav : userDoc.favorites.contains property.propertyId = true) :
    addFavorite props users c (some uid) pid =
      (users, c, FavResponse.alreadyFavorite) := by
  simp [addFavorite, hp, hu, hfav]
  exact List.mem_of_elem_eq_true hfav

/-- C10 witness: `u1` already has `PROP1` favorited; the cache entry for
`u1`'s favorites survives untouched. -/
theorem claim_C10_witness :
    addFavorite [sampleProp] [sampleUser]
        [(CACHE_KEYS.USER_FAVORITES "u1", CVal.propList [sampleProp])]
        (some "u1") "PROP1" =
      ([sampleUser],
        [(CACHE_KEYS.USER_FAVORITES "u1", CVal.propList [sampleProp])],
        FavResponse.alreadyFavorite) :=
  claim_C10 [sampleProp] [sampleUser]
    [(CACHE_KEYS.USER_FAVORITES "u1", CVal.propList [sampleProp])]
    "u1" "PROP1" sampleProp sampleUser (by decide) (by decide) (by decide)

/-- C4: no `CacheService` operation ever surfaces an error: every call
returns `.ok`; under a transport failure `get` answers a miss and `set`,
`del`, `delByPattern` leave the store untouched, and a deserialization
failure on `get` also degrades to a miss. -/
theorem claim_C4 {α : Type} (jsonParse : String → Except Unit α)
    (stringify : α → String) (st : RStore) (k : String) (v : α) (ttl : ℕ)
    (pat : String) (f fk fd : Bool) :
    (∃ r, CacheService.get f jsonParse st k = .ok r) ∧
    CacheService.get true jsonParse st k = .ok none ∧
    CacheService.get false (fun _ => (Except.error () : Except Unit α)) st k =
      .ok none ∧
    (∃ st2, CacheService.set f stringify st k v ttl = .ok st2) ∧
    CacheService.set true stringify st k v ttl = .ok st ∧
    (∃ st2, CacheService.del f st k = .ok st2) ∧
    CacheService.del true st k = .ok st ∧
    (∃ st2, CacheService.delByPattern fk fd st pat = .ok st2) ∧
    CacheService.delByPattern true fd st pat = .ok st ∧
    CacheService.delByPattern false true st pat = .ok st := by
  refine ⟨?_, rfl, ?_, ?_, rfl, ?_, rfl, ?_, rfl, ?_⟩
  · cases f with
    | true => exact ⟨none, rfl⟩
    | false =>
      rcases h2 : rstoreLookup st k with _ | s
      · exact ⟨none, by simp [CacheService.get, redisGet, h2, Bind.bind, Except.bind, Pure.pure, Except.pure]⟩
      · cases he : s.isEmpty with
        | true => exact ⟨none, by simp [CacheService.get, redisGet, h2, he, Bind.bind, Except.bind, Pure.pure, Except.pure]⟩
        | false =>
          rcases hp2 : jsonParse s with _ | a
          · exact ⟨none, by simp [CacheService.get, redisGet, h2, he, hp2, Bind.bind, Except.bind, Pure.pure, Except.pure, Functor.map, Except.map]⟩
          · exact ⟨some a, by simp [CacheService.get, redisGet, h2, he, hp2, Bind.bind, Except.bind, Pure.pure, Except.pure, Functor.map, Except.map]⟩
  · rcases h2 : rstoreLookup st k with _ | s
    · simp [CacheService.get, redisGet, h2, Bind.bind, Except.bind, Pure.pure, Except.pure]
    · cases he : s.isEmpty with
      | true => simp [CacheService.get, redisGet, h2, he, Bind.bind, Except.bind, Pure.pure, Except.pure]
      | false => simp [CacheService.get, redisGet, h2, he, Bind.bind, Except.bind, Pure.pure, Except.pure]
  · cases f with
    | true => exact ⟨st, rfl⟩
    | false => exact ⟨_, rfl⟩
  · cases f with
    | true => exact ⟨st, rfl⟩
    | false => exact ⟨_, rfl⟩
  · cases fk with
    | true => exact ⟨st, rfl⟩
    | false =>
      cases fd with
      | true =>
        by_cases h : 0 < (List.filter (fun j => globMatchStr pat j)
            (st.map (fun e => e.1))).length
        · exact ⟨st, by simp [CacheService.delByPattern, redisKeys, redisDel, h, Bind.bind, Except.bind, Pure.pure, Except.pure]⟩
        · exact ⟨st, by simp [CacheService.delByPattern, redisKeys, redisDel, h, Bind.bind, Except.bind, Pure.pure, Except.pure]⟩
      | false =>
        by_cases h : 0 < (List.filter (fun j => globMatchStr pat j)
            (st.map (fun e => e.1))).length
        · exact ⟨List.filter
              (fun e => !((List.filter (fun j => globMatchStr pat j)
                (st.map (fun e2 => e2.1))).contains e.1)) st,
            by simp [CacheService.delByPattern, redisKeys, redisDel, h, Bind.bind, Except.bind, Pure.pure, Except.pure]⟩
        · exact ⟨st, by simp [CacheService.delByPattern, redisKeys, redisDel, h, Bind.bind, Except.bind, Pure.pure, Except.pure]⟩
  · by_cases h : 0 < (List.filter (fun j => globMatchStr pat j)
        (st.map (fun e => e.1))).length
    · simp [CacheService.delByPattern, redisKeys, redisDel, h, Bind.bind, Except.bind, Pure.pure, Except.pure]
    · simp [CacheService.delByPattern, redisKeys, redisDel, h, Bind.bind, Except.bind, Pure.pure, Except.pure]

/-- C2: two search requests carrying exactly the same name/value
constraints, supplied in different argument order, receive different cache
keys: the key is the raw insertion-order JSON serialization of the query
object, so the required canonicalization does not happen. -/
theorem claim_C2 :
    List.Perm ([("type", "flat"), ("city", "Pune")] : List (String × String))
      [("city", "Pune"), ("type", "flat")] ∧
    searchCacheKey [("type", "flat"), ("city", "Pune")] ≠
      searchCacheKey [("city", "Pune"), ("type", "flat")] := by
  constructor
  · decide
  · decide

/-- C9 counterexample: the collection-wide pattern `properties:*` does not
match the single-listing key `property:p1`. -/
theorem claim_C9_cex :
    globMatchStr "properties:*" (CACHE_KEYS.PROPERTY "p1") = false := by
  decide

/-- C9 (amended): no single-listing cache key is matched by the
collection-wide invalidation pattern `properties:*` (the pattern's eighth
character `i` mismatches the key's `y`); single-listing entries are
removed only by the exact-key delete issued on update/delete. -/
theorem claim_C9 (id : String) :
    globMatchStr "properties:*" (CACHE_KEYS.PROPERTY id) = false := by
  have h : (CACHE_KEYS.PROPERTY id).toList =
      'p' :: 'r' :: 'o' :: 'p' :: 'e' :: 'r' :: 't' :: 'y' :: ':' :: id.toList := by
    show ("property:" ++ id).toList = _
    simp [String.toList, String.data_append]
  rw [globMatchStr, h]
  simp [globMatch]

/-- C7 counterexample: a supplied non-positive page is neither rejected nor
clamped: `page=0` parses to 0 and yields `skip = -10`, a negative skip
handed to the Entity Store. -/
theorem claim_C7_cex :
    searchPageNum [("page", "0")] = JsNum.val 0 ∧
    searchLimitNum [("page", "0")] = JsNum.val 10 ∧
    searchSkip [("page", "0")] = JsNum.val (-10) := by
  refine ⟨by decide, by decide, by decide⟩

/-- C7 (amended): the defaults `page=1`, `limit=10` apply only when the
parameter is absent from the query; a supplied value is used as
`parseInt` leaves it, without rejection or clamping. -/
theorem claim_C7 (q : QueryParams)
    (hp : queryLookup q "page" = none)
    (hl : queryLookup q "limit" = none) :
    searchPageNum q = JsNum.val 1 ∧
    searchLimitNum q = JsNum.val 10 ∧
    searchSkip q = JsNum.val 0 := by
  have h1 : searchPageNum q = JsNum.val 1 := by
    rw [searchPageNum, hp]; decide
  have h2 : searchLimitNum q = JsNum.val 10 := by
    rw [searchLimitNum, hl]; decide
  refine ⟨h1, h2, ?_⟩
  rw [searchSkip, h1, h2]
  decide

/-- C7 witness: a query naming neither `page` nor `limit`. -/
theorem claim_C7_witness :
    searchPageNum [("city", "Pune")] = JsNum.val 1 ∧
    searchLimitNum [("city", "Pune")] = JsNum.val 10 ∧
    searchSkip [("city", "Pune")] = JsNum.val 0 :=
  claim_C7 [("city", "Pune")] (by decide) (by decide)

/-- A document satisfying the whole filter satisfies its amenities
condition in particular. -/
theorem matchesFilter_amenities_all (f : Filter) (p : Property)
    (l : List String) (hl : f.amenities = some l)
    (h : matchesFilter f p = true) : allMatches l p.amenities = true := by
  rw [matchesFilter] at h
  simp only [Bool.and_eq_true] at h
  have h2 := h.1.2
  rw [hl] at h2
  exact h2

/-- A document satisfying the whole filter satisfies its tags condition
in particular. -/
theorem matchesFilter_tags_all (f : Filter) (p : Property)
    (l : List String) (hl : f.tags = some l)
    (h : matchesFilter f p = true) : allMatches l p.tags = true := by
  rw [matchesFilter] at h
  simp only [Bool.and_eq_true] at h
  have h2 := h.2
  rw [hl] at h2
  exact h2

/-- C5: a delimiter-separated set-membership constraint, on amenities or
on tags, becomes an `$all` filter over the split list, and a listing
satisfies the search filter only if the corresponding array field contains
every listed value (conjunctive containment, not any-of). -/
theorem claim_C5 (q : QueryParams) (p : Property) :
    (∀ s, queryLookup q "amenities" = some s → s.isEmpty = false →
      (buildFilter q).amenities = some (jsSplit s '|') ∧
      (matchesFilter (buildFilter q) p = true →
        ∀ a ∈ jsSplit s '|', a ∈ p.amenities) ∧
      (allMatches (jsSplit s '|') p.amenities = true ↔
        ∀ a ∈ jsSplit s '|', a ∈ p.amenities)) ∧
    (∀ s, queryLookup q "tags" = some s → s.isEmpty = false →
      (buildFilter q).tags = some (jsSplit s '|') ∧
      (matchesFilter (buildFilter q) p = true →
        ∀ a ∈ jsSplit s '|', a ∈ p.tags) ∧
      (allMatches (jsSplit s '|') p.tags = true ↔
        ∀ a ∈ jsSplit s '|', a ∈ p.tags)) := by
  constructor
  · intro s hq hs
    have hfa : (buildFilter q).amenities = some (jsSplit s '|') := by
      simp [buildFilter, truthy, hq, hs]
    have hiff : allMatches (jsSplit s '|') p.amenities = true ↔
        ∀ a ∈ jsSplit s '|', a ∈ p.amenities := by
      simp [allMatches, List.all_eq_true]
    exact ⟨hfa,
      fun hm => hiff.mp (matchesFilter_amenities_all _ _ _ hfa hm), hiff⟩
  · intro s hq hs
    have hft : (buildFilter q).tags = some (jsSplit s '|') := by
      simp [buildFilter, truthy, hq, hs]
    have hiff : allMatches (jsSplit s '|') p.tags = true ↔
        ∀ a ∈ jsSplit s '|', a ∈ p.tags := by
      simp [allMatches, List.all_eq_true]
    exact ⟨hft,
      fun hm => hiff.mp (matchesFilter_tags_all _ _ _ hft hm), hiff⟩

/-- C5 witness: `amenities=pool|gym` and `tags=lake-view` against a
listing carrying both; the filter carries each split list. -/
theorem claim_C5_witness :
    (buildFilter [("amenities", "pool|gym"),
      ("tags", "lake-view")]).amenities = some ["pool", "gym"] ∧
    (buildFilter [("amenities", "pool|gym"),
      ("tags", "lake-view")]).tags = some ["lake-view"] ∧
    (∀ a ∈ jsSplit "pool|gym" '|', a ∈ sampleProp.amenities) ∧
    (∀ a ∈ jsSplit "lake-view" '|', a ∈ sampleProp.tags) := by
  have h := claim_C5 [("amenities", "pool|gym"), ("tags", "lake-view")]
    sampleProp
  have ha := h.1 "pool|gym" (by decide) (by decide)
  have ht := h.2 "lake-view" (by decide) (by decide)
  refine ⟨?_, ?_, ha.2.1 (by decide), ht.2.1 (by decide)⟩
  · rw [ha.1]
    decide
  · rw [ht.1]
    decide

/-- C8 counterexample: `bedrooms=abc` does not surface a validation
failure: `parseInt` yields NaN, the NaN constraint is placed in the filter
and forwarded, and the request completes with the 200 success payload. -/
theorem claim_C8_cex :
    (buildFilter [("bedrooms", "abc")]).bedrooms = some JsNum.nan ∧
    isSuccess (searchProperties [] [] [("bedrooms", "abc")]).2 = true := by
  exact ⟨by decide, by decide⟩

/-- C8 (amended): an unparseable numeric constraint, on any of the numeric
filter fields, is neither surfaced as a validation error nor dropped:
`parseInt`/`parseFloat` turn it into NaN, the NaN bound is placed in the
corresponding filter component and forwarded to the Entity Store, and no
path of `searchProperties` produces a validation failure. -/
theorem claim_C8 (st : List Property) (c : Cache) (q : QueryParams)
    (s : String) (hs : s.isEmpty = false) (hnan : jsParseInt s = JsNum.nan) :
    (queryLookup q "bedrooms" = some s →
      (buildFilter q).bedrooms = some JsNum.nan) ∧
    (queryLookup q "bathrooms" = some s →
      (buildFilter q).bathrooms = some JsNum.nan) ∧
    (queryLookup q "minPrice" = some s →
      (buildFilter q).price =
        some ⟨some JsNum.nan,
          (truthy (queryLookup q "maxPrice")).map jsParseInt⟩) ∧
    (queryLookup q "maxPrice" = some s →
      (buildFilter q).price =
        some ⟨(truthy (queryLookup q "minPrice")).map jsParseInt,
          some JsNum.nan⟩) ∧
    (queryLookup q "minArea" = some s →
      (buildFilter q).areaSqFt =
        some ⟨some JsNum.nan,
          (truthy (queryLookup q "maxArea")).map jsParseInt⟩) ∧
    (queryLookup q "maxArea" = some s →
      (buildFilter q).areaSqFt =
        some ⟨(truthy (queryLookup q "minArea")).map jsParseInt,
          some JsNum.nan⟩) ∧
    (jsParseFloat s = JsNum.nan → queryLookup q "minRating" = some s →
      (buildFilter q).rating = some ⟨some JsNum.nan, none⟩) ∧
    isValidationError (searchProperties st c q).2 = false := by
  refine ⟨?_, ?_, ?_, ?_, ?_, ?_, ?_, ?_⟩
  · intro h
    simp [buildFilter, truthy, h, hs, hnan]
  · intro h
    simp [buildFilter, truthy, h, hs, hnan]
  · intro h
    simp [buildFilter, truthy, h, hs, hnan]
  · intro h
    simp [buildFilter, truthy, h, hs, hnan]
  · intro h
    simp [buildFilter, truthy, h, hs, hnan]
  · intro h
    simp [buildFilter, truthy, h, hs, hnan]
  · intro hf h
    simp [buildFilter, truthy, h, hs, hf]
  · rcases h1 : cacheLookup c (searchCacheKey q) with _ | v
    · rcases h2 : execFind st (buildFilter q) (searchSortBy q)
          (searchSortOrder q == "asc") (searchSkip q) (searchLimitNum q)
        with e | ps
      · simp [searchProperties, h1, h2, isValidationError]
      · simp [searchProperties, h1, h2, isValidationError]
    · simp [searchProperties, h1, isValidationError]

/-- C8 witness: `bedrooms=abc`, `minPrice=abc`, `minRating=abc` against a
one-listing store: NaN lands in each filter component and the response is
not a validation failure. -/
theorem claim_C8_witness :
    (buildFilter [("bedrooms", "abc"), ("minPrice", "abc"),
      ("minRating", "abc")]).bedrooms = some JsNum.nan ∧
    (buildFilter [("bedrooms", "abc"), ("minPrice", "abc"),
      ("minRating", "abc")]).price = some ⟨some JsNum.nan, none⟩ ∧
    (buildFilter [("bedrooms", "abc"), ("minPrice", "abc"),
      ("minRating", "abc")]).rating = some ⟨some JsNum.nan, none⟩ ∧
    isValidationError (searchProperties [sampleProp] []
      [("bedrooms", "abc"), ("minPrice", "abc"), ("minRating", "abc")]).2 =
      false := by
  have h := claim_C8 [sampleProp] []
    [("bedrooms", "abc"), ("minPrice", "abc"), ("minRating", "abc")] "abc"
    (by decide) (by decide)
  refine ⟨h.1 (by decide), ?_,
    h.2.2.2.2.2.2.1 (by decide) (by decide), h.2.2.2.2.2.2.2⟩
  rw [h.2.2.1 (by decide)]
  decide

/-- Rational ceiling of `t / l` agrees with the natural-number formula
`(t + l - 1) / l`. -/
theorem ceil_div_eq_natCeilDiv (t l : ℕ) (hl : 1 ≤ l) :
    (⌈(t : ℚ) / (l : ℚ)⌉ : ℤ) = (((t + l - 1) / l : ℕ) : ℤ) := by
  have hl0 : (0 : ℚ) < (l : ℚ) := by exact_mod_cast hl
  have hd := Nat.div_add_mod (t + l - 1) l
  have hm : (t + l - 1) % l < l := Nat.mod_lt _ (by omega)
  set e := (t + l - 1) / l with he
  have key1 : (t : ℤ) ≤ (l : ℤ) * e := by omega
  have key2 : (l : ℤ) * e - l < t := by omega
  rw [Int.ceil_eq_iff]
  constructor
  · rw [lt_div_iff₀ hl0]
    calc ((((e : ℕ) : ℤ) : ℚ) - 1) * (l : ℚ)
        = (((l : ℤ) * e - l : ℤ) : ℚ) := by push_cast; ring
      _ < (t : ℚ) := by exact_mod_cast key2
  · rw [div_le_iff₀ hl0]
    calc (t : ℚ) ≤ (((l : ℤ) * e : ℤ) : ℚ) := by exact_mod_cast key1
      _ = (((e : ℕ) : ℤ) : ℚ) * (l : ℚ) := by push_cast; ring

/-- The payload C6 predicts for a search with effective page `pn` and
limit `ln`: the window of the sorted matches skipping `(pn-1)*ln` items
and taking at most `ln`, with `pages = ceiling(total/limit)` computed by
the natural-number formula. -/
def searchResultSpec (st : List Property) (q : QueryParams) (pn ln : ℕ) :
    SearchResult :=
  let ms := List.filter (fun p => matchesFilter (buildFilter q) p) st
  let sorted := applySort (searchSortBy q) (searchSortOrder q == "asc") ms
  { properties := (sorted.drop ((pn - 1) * ln)).take ln
    pagination :=
      { total := ms.length
        page := JsNum.val (pn : ℚ)
        limit := JsNum.val (ln : ℚ)
        pages := JsNum.val (((ms.length + ln - 1) / ln : ℕ) : ℚ) }
    filterOptions := getFilterOptions st }

/-- C6: on a cache miss with positive integral page and limit, the search
skips `(page-1)*limit` of the sorted matches, returns at most `limit`
items, reports the full match count, and reports
`pages = ceiling(total/limit)` (so `total = 0` gives `pages = 0` and a
limit exceeding a nonempty result set gives `pages = 1`). -/
theorem claim_C6 (st : List Property) (c : Cache) (q : QueryParams)
    (pn ln : ℕ) (hpn : 1 ≤ pn) (hln : 1 ≤ ln)
    (hpage : searchPageNum q = JsNum.val (pn : ℚ))
    (hlimit : searchLimitNum q = JsNum.val (ln : ℚ))
    (hmiss : cacheLookup c (searchCacheKey q) = none) :
    searchProperties st c q =
      (cacheSet c (searchCacheKey q)
        (CVal.searchRes (searchResultSpec st q pn ln)),
       SearchResponse.success (searchResultSpec st q pn ln)) ∧
    (searchResultSpec st q pn ln).properties.length ≤ ln := by
  have hskip : searchSkip q = JsNum.val ((((pn - 1) * ln : ℕ)) : ℚ) := by
    rw [searchSkip, hpage, hlimit]
    simp only [JsNum.sub, JsNum.mul, JsNum.val.injEq]
    rw [Nat.cast_mul, Nat.cast_sub hpn]
    push_cast
    ring
  have hs1 : ((((pn - 1) * ln : ℕ)) : ℚ).isInt = true := by
    simp only [Rat.isInt, Rat.den_natCast]
    rfl
  have hs2 : ((ln : ℕ) : ℚ).isInt = true := by
    simp only [Rat.isInt, Rat.den_natCast]
    rfl
  have hs3 : decide ((0 : ℚ) ≤ (((pn - 1) * ln : ℕ) : ℚ)) = true :=
    decide_eq_true (Nat.cast_nonneg _)
  have hexec : execFind st (buildFilter q) (searchSortBy q)
      (searchSortOrder q == "asc") (JsNum.val ((((pn - 1) * ln : ℕ)) : ℚ))
      (JsNum.val (ln : ℚ)) =
      .ok (((applySort (searchSortBy q) (searchSortOrder q == "asc")
        (List.filter (fun p => matchesFilter (buildFilter q) p) st)).drop
          ((pn - 1) * ln)).take ln) := by
    rw [execFind]
    rw [if_pos (by rw [hs1, hs2, hs3]; rfl)]
    simp only [Rat.num_natCast, Int.toNat_natCast, Int.natAbs_ofNat]
  have hlq : ((ln : ℕ) : ℚ) ≠ 0 := by
    exact_mod_cast Nat.one_le_iff_ne_zero.mp hln
  have hpages :
      JsNum.ceil (JsNum.div
        (JsNum.val (((List.filter (fun p => matchesFilter (buildFilter q) p)
          st).length : ℕ) : ℚ)) (JsNum.val (ln : ℚ))) =
      JsNum.val ((((List.filter (fun p => matchesFilter (buildFilter q) p)
          st).length + ln - 1) / ln : ℕ) : ℚ) := by
    rw [JsNum.div, if_neg hlq, JsNum.ceil]
    rw [ceil_div_eq_natCeilDiv _ ln hln]
    simp only [Int.cast_natCast]
  constructor
  · simp only [searchProperties, hmiss]
    rw [hpage, hlimit, hskip, hexec]
    simp only [searchResultSpec, hpages]
  · simp only [searchResultSpec]
    exact List.length_take_le _ _

/-- C6 witness: page 2, limit 3 against a one-listing store and empty
cache. -/
theorem claim_C6_witness :
    searchProperties [sampleProp] [] [("page", "2"), ("limit", "3")] =
      (cacheSet [] (searchCacheKey [("page", "2"), ("limit", "3")])
        (CVal.searchRes
          (searchResultSpec [sampleProp] [("page", "2"), ("limit", "3")] 2 3)),
       SearchResponse.success
        (searchResultSpec [sampleProp] [("page", "2"), ("limit", "3")] 2 3)) ∧
    (searchResultSpec [sampleProp] [("page", "2"), ("limit", "3")]
        2 3).properties.length ≤ 3 :=
  claim_C6 [sampleProp] [] [("page", "2"), ("limit", "3")] 2 3
    (by decide) (by decide) (by decide) (by decide) (by decide)

end ClaimTheorems

end PropertySystem

